import Mathlib

/-!
A shallow embedding of src/signed.rs of the rush repository: the type-state
signature-verification layer (UncheckedSigned, Signed, PartiallyMultisigned,
Multisigned) and its transition functions, together with theorems checking
the natural-language specification against it.

Modelling conventions:
* NodeIndex (from crate::nodes, declared outside this file) is a participant
  index; the spec describes it as a stable identifier, modelled as Nat.
* The Rust traits Signable, Index, KeyBox, PartialMultisignature and
  MultiKeychain are interfaces supplied by the surrounding system; each is
  modelled as a structure bundling its operations (a trait object), so a
  value of the structure is one particular implementation.
* Byte slices (the hash().as_ref() values fed to sign/verify) are Bytes,
  lists of Nat.
* Rust methods taking &mut self (PartialMultisignature::add_signature,
  PartiallyMultisigned::add_signature) are modelled as functions returning
  the updated value.
* Rust Result is modelled as Except with the error type first.
-/

namespace Rush

/-- Participant index, crate::nodes::NodeIndex. -/
abbrev NodeIndex := Nat

/-- Byte sequences, the image of hash().as_ref(). -/
abbrev Bytes := List Nat

/-- The Signable trait: a payload that derives a content hash.
The associated Hash type only ever appears through as_ref, so the hash is
modelled as yielding Bytes directly. -/
structure Signable (T : Type) where
  hash : T → Bytes

/-- The crate::Index trait (declared outside src/signed.rs): self-reported
participant index of a value, modelled from the spec sentence describing
Indexable as index(&self) -> participant-index. -/
structure Index (T : Type) where
  index : T → NodeIndex

/-- The KeyBox trait: signing and verification of individual signatures,
plus the local participant index from its Index supertrait. -/
structure KeyBox (S : Type) where
  index : NodeIndex
  sign : Bytes → S
  verify : Bytes → S → NodeIndex → Bool

/-- The PartialMultisignature trait of the aggregate type M: absorbing one
(signature, index) contribution. The Rust &mut self method is modelled as
returning the updated aggregate. -/
structure PartialMultisignature (S M : Type) where
  add_signature : M → S → NodeIndex → M

/-- The MultiKeychain trait: a KeyBox extended with lifting a single
signature to an aggregate, the completeness predicate, and aggregate
verification. -/
structure MultiKeychain (S M : Type) extends KeyBox S where
  from_signature : S → NodeIndex → M
  is_complete : M → Bool
  verify_partial : Bytes → M → Bool

/-- UncheckedSigned: a payload paired with a signature (or aggregate) of
unknown validity. -/
structure UncheckedSigned (T S : Type) where
  signable : T
  signature : S

/-- SignatureError: returns ownership of the rejected carrier. -/
structure SignatureError (T S : Type) where
  unchecked : UncheckedSigned T S

/-- Signed: a carrier upgraded with the keying capability it was verified
against (the Rust value borrows the key box; here the capability value is
stored). -/
structure Signed (T S : Type) where
  unchecked : UncheckedSigned T S
  key_box : KeyBox S

/-- PartiallyMultisigned: a carrier holding an aggregate signature, with the
keychain it was verified against. -/
structure PartiallyMultisigned (T S M : Type) where
  unchecked : UncheckedSigned T M
  keychain : MultiKeychain S M

/-- Multisigned: the completed quorum certificate. In the Rust source both
fields are declared pub (src/signed.rs lines 163 to 166), so the record
constructor is public there, unlike Signed and PartiallyMultisigned whose
fields are private. -/
structure Multisigned (T S M : Type) where
  unchecked : UncheckedSigned T M
  keychain : MultiKeychain S M

/-- IncompleteMultisignatureError: wraps the still-incomplete proof. The
Rust field is named after the partial proof it wraps; that word is reserved
here, so the field is partial_proof. -/
structure IncompleteMultisignatureError (T S M : Type) where
  partial_proof : PartiallyMultisigned T S M

/-- UncheckedSigned::check_with_index: verify the signature against the key
with the given index; on success upgrade to Signed, on failure wrap the
unmodified carrier in a SignatureError. -/
def UncheckedSigned.check_with_index {T S : Type} (sig : Signable T)
    (u : UncheckedSigned T S) (key_box : KeyBox S) (index : NodeIndex) :
    Except (SignatureError T S) (Signed T S) :=
  if !key_box.verify (sig.hash u.signable) u.signature index then
    Except.error { unchecked := u }
  else
    Except.ok { unchecked := u, key_box := key_box }

/-- UncheckedSigned::check_partial: verify the aggregate signature with the
keychain; on success upgrade to PartiallyMultisigned, on failure wrap the
unmodified carrier in a SignatureError. -/
def UncheckedSigned.check_partial {T S M : Type} (sig : Signable T)
    (u : UncheckedSigned T M) (keychain : MultiKeychain S M) :
    Except (SignatureError T M) (PartiallyMultisigned T S M) :=
  if !keychain.verify_partial (sig.hash u.signable) u.signature then
    Except.error { unchecked := u }
  else
    Except.ok { unchecked := u, keychain := keychain }

/-- UncheckedSigned::check: as check_with_index, with the index taken from
the signed object itself. -/
def UncheckedSigned.check {T S : Type} (sig : Signable T) (ind : Index T)
    (u : UncheckedSigned T S) (key_box : KeyBox S) :
    Except (SignatureError T S) (Signed T S) :=
  UncheckedSigned.check_with_index sig u key_box (ind.index u.signable)

/-- Signed::sign: hash the payload, sign the hash, and construct carrier and
proof directly, skipping verification. -/
def Signed.sign {T S : Type} (sig : Signable T) (key_box : KeyBox S)
    (signable : T) : Signed T S :=
  { unchecked := { signable := signable
                   signature := key_box.sign (sig.hash signable) }
    key_box := key_box }

/-- Signed::into_unchecked: downgrade for transport, keeping the data. -/
def Signed.into_unchecked {T S : Type} (s : Signed T S) :
    UncheckedSigned T S :=
  s.unchecked

/-- Signed::as_signable: read-only access to the payload. -/
def Signed.as_signable {T S : Type} (s : Signed T S) : T :=
  s.unchecked.signable

/-- PartiallyMultisigned::sign: self-sign the payload, lift the single
signature to an aggregate attributed to the keychain's own index, and
construct the proof directly. -/
def PartiallyMultisigned.sign {T S M : Type} (sig : Signable T)
    (signable : T) (keychain : MultiKeychain S M) :
    PartiallyMultisigned T S M :=
  let signature := keychain.sign (sig.hash signable)
  let multisignature := keychain.from_signature signature keychain.index
  { unchecked := { signable := signable
                   signature := multisignature }
    keychain := keychain }

/-- PartiallyMultisigned::add_signature: if the hashes of the two payloads
differ the call is a no-op (the Rust code logs at debug level and returns);
otherwise merge the individual signature into the aggregate through the
PartialMultisignature operation of M. The Rust method mutates self and
returns (); here the updated value is returned, and no error channel
exists. -/
def PartiallyMultisigned.add_signature {T S M : Type} (sig : Signable T)
    (pm : PartialMultisignature S M) (self : PartiallyMultisigned T S M)
    (signed : Signed T S) (index : NodeIndex) :
    PartiallyMultisigned T S M :=
  if sig.hash self.unchecked.signable ≠ sig.hash (Signed.as_signable signed)
  then
    self
  else
    { self with
        unchecked := { self.unchecked with
          signature := pm.add_signature self.unchecked.signature
            signed.unchecked.signature index } }

/-- PartiallyMultisigned::_try_into_complete: ask the argument keychain's
completeness predicate; on success construct the Multisigned from the stored
fields (self.unchecked and self.keychain), on failure wrap self in an
IncompleteMultisignatureError. -/
def PartiallyMultisigned._try_into_complete {T S M : Type}
    (self : PartiallyMultisigned T S M) (keychain : MultiKeychain S M) :
    Except (IncompleteMultisignatureError T S M) (Multisigned T S M) :=
  if !keychain.is_complete self.unchecked.signature then
    Except.error { partial_proof := self }
  else
    Except.ok { unchecked := self.unchecked, keychain := self.keychain }

/-!
The wire format of the carrier. src/signed.rs line 56 derives Encode and
Decode from the external codec crate for UncheckedSigned; the expansion of
that derive is not part of this repository.
-/

/-- Modelled from the spec: an encoding scheme for one type, as consumed by
the external codec crate (missing from src/). encode yields the byte
serialization; decode consumes a prefix of the input and returns the value
with the remaining bytes. -/
structure Codec (X : Type) where
  encode : X → Bytes
  decode : Bytes → Option (X × Bytes)

/-- A codec is lawful when decoding an encoding, followed by any suffix,
returns the value and the suffix: the byte-exact round trip of one field. -/
def Codec.lawful {X : Type} (c : Codec X) : Prop :=
  ∀ x rest, c.decode (c.encode x ++ rest) = some (x, rest)

/-- Modelled from the spec: the derived Encode of UncheckedSigned (the
codec derive of src/signed.rs line 56, expansion missing from src/)
serializes the fields in declaration order, payload first, then
signature. -/
def UncheckedSigned.encode {T S : Type} (cT : Codec T) (cS : Codec S)
    (u : UncheckedSigned T S) : Bytes :=
  cT.encode u.signable ++ cS.encode u.signature

/-- Modelled from the spec: the derived Decode of UncheckedSigned (the
codec derive of src/signed.rs line 56, expansion missing from src/) reads
the payload, then the signature, in declaration order. -/
def UncheckedSigned.decode {T S : Type} (cT : Codec T) (cS : Codec S)
    (b : Bytes) : Option (UncheckedSigned T S × Bytes) :=
  match cT.decode b with
  | none => none
  | some (t, rest) =>
    match cS.decode rest with
    | none => none
    | some (s, rest2) => some ({ signable := t, signature := s }, rest2)

/-!
Concrete instances of the external capabilities, used to evaluate the
theorems below on closed inputs.
-/

/-- A Nat payload whose hash is the singleton byte list. -/
def natSignable : Signable Nat := { hash := fun n => [n] }

/-- A Nat payload reports its own parity as its participant index. -/
def natIndex : Index Nat := { index := fun n => n % 2 }

/-- A key box whose signature of a message is the message itself, and whose
verification accepts exactly that, for every index. -/
def idKeyBox : KeyBox Bytes :=
  { index := 0
    sign := fun m => m
    verify := fun m s _ => m == s }

/-- A concrete aggregate type: the list of absorbed (index, signature)
contributions. -/
abbrev Agg := List (NodeIndex × Bytes)

/-- Aggregation for Agg: prepend the contribution. -/
def listPm : PartialMultisignature Bytes Agg :=
  { add_signature := fun m s i => (i, s) :: m }

/-- A keychain over Agg: completeness means at least two contributions. -/
def listKeychain : MultiKeychain Bytes Agg :=
  { index := 0
    sign := fun m => m
    verify := fun m s _ => m == s
    from_signature := fun s i => [(i, s)]
    is_complete := fun m => decide (2 ≤ m.length)
    verify_partial := fun _ _ => true }

/-- A second keychain over Agg, differing from listKeychain: it considers
every aggregate complete and has participant index 1. -/
def lenientKeychain : MultiKeychain Bytes Agg :=
  { index := 1
    sign := fun m => 0 :: m
    verify := fun _ _ _ => true
    from_signature := fun s i => [(i, s)]
    is_complete := fun _ => true
    verify_partial := fun _ _ => true }

/-- A partial proof over payload 5 with a single contribution, held under
listKeychain (whose completeness predicate rejects it). -/
def pOne : PartiallyMultisigned Nat Bytes Agg :=
  { unchecked := { signable := 5, signature := [(0, [5])] }
    keychain := listKeychain }

/-- A partial proof over payload 4 with two contributions, complete under
listKeychain. -/
def pTwo : PartiallyMultisigned Nat Bytes Agg :=
  { unchecked := { signable := 4, signature := [(0, [4]), (1, [4])] }
    keychain := listKeychain }

/-- A signed value over payload 7. -/
def sSeven : Signed Nat Bytes :=
  { unchecked := { signable := 7, signature := [7] }
    key_box := idKeyBox }

/-- A signed value over payload 5, matching the payload of pOne. -/
def sFive : Signed Nat Bytes :=
  { unchecked := { signable := 5, signature := [5] }
    key_box := idKeyBox }

/-- A Multisigned value built by the record constructor, with an empty
aggregate: in the Rust source both fields of Multisigned are pub
(src/signed.rs lines 163 to 166), so the corresponding struct literal is
available to any client code, bypassing every completeness check. -/
def bogusMultisigned : Multisigned Nat Bytes Agg :=
  { unchecked := { signable := 0, signature := [] }
    keychain := listKeychain }

/-- A codec for Nat: a singleton list. -/
def natCodec : Codec Nat :=
  { encode := fun n => [n]
    decode := fun b =>
      match b with
      | [] => none
      | n :: rest => some (n, rest) }

/-- A length-prefixed codec for Bytes. -/
def bytesCodec : Codec Bytes :=
  { encode := fun b => b.length :: b
    decode := fun bs =>
      match bs with
      | [] => none
      | n :: rest =>
        if n ≤ rest.length then some (rest.take n, rest.drop n) else none }

/-- An unchecked carrier over payload 6 with signature bytes [6]. -/
def uExample : UncheckedSigned Nat Bytes :=
  { signable := 6, signature := [6] }

theorem natCodec_lawful : natCodec.lawful := fun _ _ => rfl

theorem bytesCodec_lawful : bytesCodec.lawful := by
  intro x rest
  simp [bytesCodec, Codec.lawful]

/-!
The claims.
-/

/-- C1: check_with_index returns a Signed value borrowing the capability
and wrapping the same payload and signature exactly when the capability's
verify predicate returns true for (hash payload, signature, index), and
otherwise a SignatureError wrapping the original carrier unmodified;
check_partial behaves identically with verify_partial, producing
PartiallyMultisigned on success. -/
theorem check_with_index_and_check_partial_spec (T S M : Type)
    (sig : Signable T) (u : UncheckedSigned T S) (kb : KeyBox S)
    (i : NodeIndex) (v : UncheckedSigned T M) (kc : MultiKeychain S M) :
    UncheckedSigned.check_with_index sig u kb i =
      (if kb.verify (sig.hash u.signable) u.signature i then
        Except.ok { unchecked := u, key_box := kb }
      else
        Except.error { unchecked := u }) ∧
    UncheckedSigned.check_partial sig v kc =
      (if kc.verify_partial (sig.hash v.signable) v.signature then
        Except.ok { unchecked := v, keychain := kc }
      else
        Except.error { unchecked := v }) := by
  constructor
  · unfold UncheckedSigned.check_with_index
    cases h : kb.verify (sig.hash u.signable) u.signature i <;> simp [h]
  · unfold UncheckedSigned.check_partial
    cases h : kc.verify_partial (sig.hash v.signable) v.signature <;> simp [h]

/-- C2: round trip. For every payload and every keying capability that
accepts its own signature of the payload's hash under the payload's
self-reported index, signing, downgrading to unchecked and checking again
succeeds and yields a Signed whose payload equals the original. -/
theorem sign_into_unchecked_check_round_trip (T S : Type) (sig : Signable T)
    (ind : Index T) (kb : KeyBox S) (t : T)
    (h : kb.verify (sig.hash t) (kb.sign (sig.hash t)) (ind.index t) = true) :
    ∃ s : Signed T S,
      UncheckedSigned.check sig ind
        (Signed.into_unchecked (Signed.sign sig kb t)) kb = Except.ok s ∧
      s.unchecked.signable = t := by
  refine ⟨{ unchecked := { signable := t
                           signature := kb.sign (sig.hash t) }
            key_box := kb }, ?_, rfl⟩
  unfold UncheckedSigned.check UncheckedSigned.check_with_index Signed.sign
    Signed.into_unchecked
  simp [h]

theorem sign_into_unchecked_check_round_trip_witness :
    ∃ s : Signed Nat Bytes,
      UncheckedSigned.check natSignable natIndex
        (Signed.into_unchecked (Signed.sign natSignable idKeyBox 3)) idKeyBox =
        Except.ok s ∧
      s.unchecked.signable = 3 :=
  sign_into_unchecked_check_round_trip Nat Bytes natSignable natIndex idKeyBox
    3 (by decide)

/-- C3: aggregation hash guard. When the hash of the Signed value's payload
differs from the hash of the partial proof's payload, add_signature returns
the partial proof completely unchanged, for every participant index; the
return type has no error channel, so no error can surface. -/
theorem add_signature_foreign_payload_noop (T S M : Type) (sig : Signable T)
    (pm : PartialMultisignature S M) (p : PartiallyMultisigned T S M)
    (s : Signed T S) (i : NodeIndex)
    (h : sig.hash (Signed.as_signable s) ≠ sig.hash p.unchecked.signable) :
    PartiallyMultisigned.add_signature sig pm p s i = p := by
  have hne : sig.hash p.unchecked.signable ≠ sig.hash (Signed.as_signable s) :=
    fun he => h he.symm
  unfold PartiallyMultisigned.add_signature
  simp [hne]

theorem add_signature_foreign_payload_noop_witness :
    PartiallyMultisigned.add_signature natSignable listPm pOne sSeven 1 =
      pOne :=
  add_signature_foreign_payload_noop Nat Bytes Agg natSignable listPm pOne
    sSeven 1 (by decide)

/-- C4: try_into_complete returns a Multisigned wrapping the same payload
and aggregate exactly when the keychain's is_complete predicate accepts the
current aggregate, and otherwise an IncompleteMultisignatureError wrapping
the partial proof with payload and aggregate unchanged. -/
theorem try_into_complete_iff_is_complete (T S M : Type)
    (p : PartiallyMultisigned T S M) (kc : MultiKeychain S M) :
    PartiallyMultisigned._try_into_complete p kc =
      (if kc.is_complete p.unchecked.signature then
        Except.ok { unchecked := p.unchecked, keychain := p.keychain }
      else
        Except.error { partial_proof := p }) := by
  unfold PartiallyMultisigned._try_into_complete
  cases h : kc.is_complete p.unchecked.signature <;> simp [h]

/-- C5: check equals check_with_index at the index reported by the payload
itself, on every input. -/
theorem check_eq_check_with_index_at_payload_index (T S : Type)
    (sig : Signable T) (ind : Index T) (u : UncheckedSigned T S)
    (kb : KeyBox S) :
    UncheckedSigned.check sig ind u kb =
      UncheckedSigned.check_with_index sig u kb (ind.index u.signable) := rfl

/-- C6: when the hash of the Signed value's payload equals the hash of the
partial proof's payload, add_signature keeps the payload and replaces the
aggregate by the result of the external aggregation primitive applied to
the old aggregate, the individual signature and the given index. -/
theorem add_signature_matching_payload_updates_aggregate (T S M : Type)
    (sig : Signable T) (pm : PartialMultisignature S M)
    (p : PartiallyMultisigned T S M) (s : Signed T S) (i : NodeIndex)
    (h : sig.hash (Signed.as_signable s) = sig.hash p.unchecked.signable) :
    PartiallyMultisigned.add_signature sig pm p s i =
      { unchecked := { signable := p.unchecked.signable
                       signature := pm.add_signature p.unchecked.signature
                         s.unchecked.signature i }
        keychain := p.keychain } := by
  unfold PartiallyMultisigned.add_signature
  simp [h]

theorem add_signature_matching_payload_witness :
    PartiallyMultisigned.add_signature natSignable listPm pOne sFive 1 =
      { unchecked := { signable := 5, signature := [(1, [5]), (0, [5])] }
        keychain := listKeychain } :=
  (add_signature_matching_payload_updates_aggregate Nat Bytes Agg natSignable
    listPm pOne sFive 1 (by decide)).trans rfl

/-- C7: PartiallyMultisigned.sign returns the payload together with the
self-produced signature of its hash lifted to an aggregate of size one at
the capability's own index; the result is given by sign, from_signature and
index alone, so no verification predicate takes part. -/
theorem partially_multisigned_sign_spec (T S M : Type) (sig : Signable T)
    (t : T) (kc : MultiKeychain S M) :
    PartiallyMultisigned.sign sig t kc =
      { unchecked := { signable := t
                       signature := kc.from_signature (kc.sign (sig.hash t))
                         kc.index }
        keychain := kc } := rfl

/-- C8 counterexample: Multisigned has a public record constructor in the
source (both fields are pub, src/signed.rs lines 163 to 166), so a
Multisigned value whose aggregate fails the completeness predicate is
obtainable without any verifying operation: bogusMultisigned is such a
value, refuting the claim that every interface-obtainable Multisigned
satisfies is_complete. -/
theorem multisigned_direct_construction_incomplete :
    bogusMultisigned.keychain.is_complete
      bogusMultisigned.unchecked.signature = false := by decide

/-- C8 amended: every Multisigned produced by the completeness-upgrade
operation _try_into_complete satisfies the completeness predicate of the
consulted keychain at construction time; the direct record constructor
(public in the source, since the fields of Multisigned are pub) is not
covered by the invariant. -/
theorem try_into_complete_output_is_complete (T S M : Type)
    (p : PartiallyMultisigned T S M) (kc : MultiKeychain S M)
    (m : Multisigned T S M)
    (h : PartiallyMultisigned._try_into_complete p kc = Except.ok m) :
    kc.is_complete m.unchecked.signature = true := by
  unfold PartiallyMultisigned._try_into_complete at h
  cases hc : kc.is_complete p.unchecked.signature
  · rw [hc] at h
    simp at h
  · rw [hc] at h
    simp at h
    rw [← h]
    exact hc

theorem try_into_complete_output_is_complete_witness :
    listKeychain.is_complete
      (Multisigned.mk pTwo.unchecked listKeychain).unchecked.signature =
      true :=
  try_into_complete_output_is_complete Nat Bytes Agg pTwo listKeychain
    (Multisigned.mk pTwo.unchecked listKeychain) rfl

/-- C9: wire-format round trip of the carrier. The serialized form of
UncheckedSigned is the payload's encoding followed by the signature's
encoding, and with lawful field codecs, decoding an encoding followed by
any suffix returns the original carrier and the suffix unchanged. -/
theorem unchecked_signed_codec_round_trip (T S : Type) (cT : Codec T)
    (cS : Codec S) (u : UncheckedSigned T S) (rest : Bytes)
    (hT : cT.lawful) (hS : cS.lawful) :
    UncheckedSigned.encode cT cS u =
      cT.encode u.signable ++ cS.encode u.signature ∧
    UncheckedSigned.decode cT cS (UncheckedSigned.encode cT cS u ++ rest) =
      some (u, rest) := by
  refine ⟨rfl, ?_⟩
  unfold UncheckedSigned.decode UncheckedSigned.encode
  rw [List.append_assoc, hT]
  simp only [Codec.lawful] at hS
  simp [hS]

theorem unchecked_signed_codec_round_trip_witness :
    UncheckedSigned.encode natCodec bytesCodec uExample =
      natCodec.encode 6 ++ bytesCodec.encode [6] ∧
    UncheckedSigned.decode natCodec bytesCodec
      (UncheckedSigned.encode natCodec bytesCodec uExample ++ [9]) =
      some (uExample, [9]) :=
  unchecked_signed_codec_round_trip Nat Bytes natCodec bytesCodec uExample
    [9] natCodec_lawful bytesCodec_lawful

/-- C10: _try_into_complete consults the argument keychain only through its
completeness predicate, and on success the returned Multisigned carries the
keychain stored in the partial proof, not the argument: so when the two
differ, the completeness evidence and the retained capability come from
different keychains. -/
theorem try_into_complete_borrows_stored_keychain (T S M : Type)
    (p : PartiallyMultisigned T S M) (k : MultiKeychain S M)
    (h : k.is_complete p.unchecked.signature = true) :
    PartiallyMultisigned._try_into_complete p k =
      Except.ok { unchecked := p.unchecked, keychain := p.keychain } := by
  unfold PartiallyMultisigned._try_into_complete
  simp [h]

theorem try_into_complete_borrows_stored_keychain_witness :
    PartiallyMultisigned._try_into_complete pOne lenientKeychain =
      Except.ok { unchecked := pOne.unchecked, keychain := listKeychain } :=
  try_into_complete_borrows_stored_keychain Nat Bytes Agg pOne
    lenientKeychain rfl

end Rush
